import Mathlib

/-!
Shallow embedding of the swap plugin (`src/plugins/swap.c`) of libblockdev.

The plugin has four public operations:
  * `bd_swap_mkswap`     — format a device as swap (delegates to `mkswap`);
  * `bd_swap_swapon`     — probe the 10-byte swap signature and, when it is
    `SWAPSPACE2`, activate the device (delegates to `swapon`);
  * `bd_swap_swapoff`    — deactivate (delegates to `swapoff`);
  * `bd_swap_swapstatus` — resolve `/dev/mapper` aliases and scan
    `/proc/swaps` line by line for the resolved device path.

External effects (file I/O, symlink reads, process execution) are modelled by
explicit oracles: a `Device` record for the byte-level probe, a `SwapEnv`
record for the registry contents and the symlink target, and an
`exec : List String → ExecResult` parameter for command execution.  The
functions below mirror the C control flow statement by statement.
-/

/-- Result of running an external command, as reported by
`bd_utils_exec_and_report_error`: a success flag and an optional message. -/
structure ExecResult where
  success : Bool
  message : Option String
deriving DecidableEq, Repr

/-- `bd_swap_mkswap`: the argv built for the formatting command.  The C code
fills `{"mkswap", "-f", NULL, NULL, NULL, NULL}` left to right: `-L label`
is inserted (when `label` is non-NULL) before the device argument. -/
def mkswapArgv (device : String) (label : Option String) : List String :=
  match label with
  | none => ["mkswap", "-f", device]
  | some l => ["mkswap", "-f", "-L", l, device]

/-- `bd_swap_mkswap` itself: builds the argv and delegates to the executor,
returning its result unchanged. -/
def bd_swap_mkswap (exec : List String → ExecResult) (device : String)
    (label : Option String) : ExecResult :=
  exec (mkswapArgv device label)

/-- `bd_swap_swapoff`: argv `{"swapoff", device}`, delegated unconditionally
to the executor, whose result is returned unchanged. -/
def bd_swap_swapoff (exec : List String → ExecResult) (device : String) :
    ExecResult :=
  exec ["swapoff", device]

/-- I/O oracle for the device probed by `bd_swap_swapon`.  `openErr`,
`seekErr` and `readErr` are `some msg` when the corresponding GIOChannel
call (`g_io_channel_new_file`, `g_io_channel_seek_position`,
`g_io_channel_read_chars`) fails with that GError message; `contents` are
the device's bytes, from which a successful read takes 10 bytes at the
seek offset (a short read happens exactly when fewer than 10 remain). -/
structure Device where
  openErr : Option String
  seekErr : Option String
  readErr : Option String
  contents : List Char

/-- glib's `CLAMP(x, low, high)`:
`(((x) > (high)) ? (high) : (((x) < (low)) ? (low) : (x)))`. -/
def CLAMP (x low high : Int) : Int :=
  if x > high then high else if x < low then low else x

/-- The probe offset of `bd_swap_swapon`: the C code does
`page_size = CLAMP (page_size, 2048, page_size)` and then seeks to
`page_size - 10`. -/
def probeOffset (pageSize : Int) : Int :=
  CLAMP pageSize 2048 pageSize - 10

/-- The 10 signature bytes (`dev_status`) obtained by
`g_io_channel_read_chars (dev_file, dev_status, 10, &num_read, &error)`
after seeking to `probeOffset pageSize`; when the device holds fewer than
10 bytes past the offset, the list is the short read (`num_read < 10`). -/
def devStatus (d : Device) (pageSize : Int) : List Char :=
  (d.contents.drop (probeOffset pageSize).toNat).take 10

/-- The argv built by `bd_swap_swapon` once the signature check passed:
`{"swapon", NULL, ...}` with `-p <priority>` filled in exactly when
`priority >= 0`, then the device. -/
def swaponArgv (device : String) (priority : Int) : List String :=
  if priority ≥ 0 then ["swapon", "-p", toString priority, device]
  else ["swapon", device]

/-- Outcome of `bd_swap_swapon`: an I/O failure message or a format-refusal
message (both returned as `FALSE` with `*error_message` set and no command
run), the NULL-pointer dereference reached when the read comes back short
— EOF and partial reads leave the GError unset, yet `swap.c:104` evaluates
`error->message`, so the process faults instead of returning — or the argv
handed to `bd_utils_exec_and_report_error`. -/
inductive SwaponResult where
  | ioError : String → SwaponResult
  | formatError : String → SwaponResult
  | nullDeref : SwaponResult
  | execCmd : List String → SwaponResult
deriving DecidableEq, Repr

/-- `bd_swap_swapon`, statement by statement: open the device, seek to
`probeOffset pageSize`, read 10 bytes, then the prefix cascade
`SWAP-SPACE` / `S1SUSPEND` / `S2SUSPEND` / not `SWAPSPACE2`, and finally
the `swapon` command.  The read-failure test is
`(io_status != G_IO_STATUS_NORMAL) || (num_read != 10)`: when a genuine
read error set the GError (`readErr = some m`), its message is returned,
but when the condition fires only because fewer than 10 bytes arrived
(EOF or partial read, status `G_IO_STATUS_EOF` or `G_IO_STATUS_NORMAL`),
GLib leaves the GError NULL and `swap.c:104` dereferences it
(`error->message`), a crash modelled as `nullDeref`. -/
def bd_swap_swapon (d : Device) (pageSize : Int) (device : String)
    (priority : Int) : SwaponResult :=
  match d.openErr with
  | some m => .ioError m
  | none =>
    match d.seekErr with
    | some m => .ioError ("Failed to determine device's state: " ++ m)
    | none =>
      match d.readErr with
      | some m => .ioError ("Failed to determine device's state: " ++ m)
      | none =>
        let st := devStatus d pageSize
        if st.length ≠ 10 then
          .nullDeref
        else if "SWAP-SPACE".toList.isPrefixOf st then
          .formatError "Old swap format, cannot activate."
        else if "S1SUSPEND".toList.isPrefixOf st
            || "S2SUSPEND".toList.isPrefixOf st then
          .formatError "Suspended system on the swap device, cannot activate."
        else if !("SWAPSPACE2".toList.isPrefixOf st) then
          .formatError "Unknown swap space format, cannot activate."
        else
          .execCmd (swaponArgv device priority)

/-- A 10-byte signature that begins with the 10-byte `SWAPSPACE2` marker is
that marker exactly. -/
theorem swapspace2_of_len10 (st : List Char)
    (hp : "SWAPSPACE2".toList.isPrefixOf st = true) (hl : st.length = 10) :
    st = "SWAPSPACE2".toList := by
  have h := (List.isPrefixOf_iff_prefix).mp hp
  exact (h.eq_of_length (by rw [hl]; decide)).symm

/-- On an openable, seekable, readable device whose signature bytes are the
`SWAPSPACE2` marker, the cascade of `bd_swap_swapon` falls through to the
command. -/
theorem swapon_exec_of_sig (cs : List Char) (p : Int) (device : String)
    (priority : Int)
    (hl : (devStatus ⟨none, none, none, cs⟩ p).length = 10)
    (hp : "SWAPSPACE2".toList.isPrefixOf (devStatus ⟨none, none, none, cs⟩ p)
            = true) :
    bd_swap_swapon ⟨none, none, none, cs⟩ p device priority
      = .execCmd (swaponArgv device priority) := by
  have hst := swapspace2_of_len10 _ hp hl
  simp only [bd_swap_swapon]
  rw [hst]
  rfl

/-- C7: `create(device, label)` always passes the forced-overwrite flag `-f`
and inserts the optional `-L label` pair before the device argument:
`mkswap -f device` without a label and `mkswap -f -L L device` with one;
the executor's result is returned unchanged. -/
theorem C7_mkswap_argv (exec : List String → ExecResult) (device l : String) :
    mkswapArgv device none = ["mkswap", "-f", device]
    ∧ mkswapArgv device (some l) = ["mkswap", "-f", "-L", l, device]
    ∧ bd_swap_mkswap exec device none = exec ["mkswap", "-f", device]
    ∧ bd_swap_mkswap exec device (some l)
        = exec ["mkswap", "-f", "-L", l, device] := by
  refine ⟨rfl, rfl, rfl, rfl⟩

/-- C8: `deactivate(device)` performs no probe and no gating: it issues
exactly `swapoff device` and returns the executor's result unchanged. -/
theorem C8_swapoff_unconditional (exec : List String → ExecResult)
    (device : String) :
    bd_swap_swapoff exec device = exec ["swapoff", device] := rfl

/-- C4: for every reported page size `p`, `CLAMP(p, 2048, p)` equals
`max(p, 2048)`, so the probe seeks to `max(p, 2048) - 10` and reads exactly
10 bytes — the signature bytes are the first 10 bytes of `contents` past
that offset, never more than 10, and exactly 10 whenever the device
extends at least 10 bytes past the offset. -/
theorem C4_probe_offset (p : Int) (d : Device) :
    CLAMP p 2048 p = max p 2048
    ∧ probeOffset p = max p 2048 - 10
    ∧ devStatus d p = (d.contents.drop (max p 2048 - 10).toNat).take 10
    ∧ (devStatus d p).length ≤ 10
    ∧ ((max p 2048 - 10).toNat + 10 ≤ d.contents.length →
        (devStatus d p).length = 10) := by
  have hclamp : CLAMP p 2048 p = max p 2048 := by
    rw [CLAMP, max_def]
    split_ifs <;> omega
  have hoff : probeOffset p = max p 2048 - 10 := by
    rw [probeOffset, hclamp]
  have hst : devStatus d p
      = (d.contents.drop (max p 2048 - 10).toNat).take 10 := by
    rw [devStatus, hoff]
  refine ⟨hclamp, hoff, hst, ?_, ?_⟩
  · rw [devStatus]
    exact le_trans (List.length_take_le 10 _) (le_refl 10)
  · intro hlen
    rw [hst, List.length_take, List.length_drop]
    omega

/-- C4 witness: at page size 1024 the clamp yields 2048, the offset is
2038, and on a device with 2048 bytes the probe reads exactly 10 bytes. -/
theorem C4_probe_offset_witness :
    (CLAMP 1024 2048 1024 = max 1024 2048
      ∧ probeOffset 1024 = max 1024 2048 - 10
      ∧ devStatus ⟨none, none, none, List.replicate 2048 'x'⟩ 1024
          = (((List.replicate 2048 'x').drop
              ((max 1024 2048 - 10 : Int)).toNat).take 10)
      ∧ (devStatus ⟨none, none, none, List.replicate 2048 'x'⟩ 1024).length ≤ 10
      ∧ (((max 1024 2048 - 10 : Int)).toNat + 10
            ≤ (List.replicate 2048 'x').length →
          (devStatus ⟨none, none, none, List.replicate 2048 'x'⟩ 1024).length
            = 10))
    ∧ ((max 1024 2048 - 10 : Int)).toNat + 10
        ≤ (List.replicate 2048 'x').length := by
  refine ⟨C4_probe_offset 1024 ⟨none, none, none, List.replicate 2048 'x'⟩, ?_⟩
  rw [List.length_replicate]
  norm_num
  decide


/-- A concrete probe-friendly device: 2038 filler bytes followed by the
`SWAPSPACE2` marker, so that at page size 1024 (clamped to 2048, offset
2038) the probe reads exactly the marker. -/
def goodDev : Device :=
  ⟨none, none, none, List.replicate 2038 ' ' ++ "SWAPSPACE2".toList⟩

/-- The probe of `goodDev` at page size 1024 yields the `SWAPSPACE2`
marker. -/
theorem goodDev_status : devStatus goodDev 1024 = "SWAPSPACE2".toList := by
  rw [devStatus]
  have h1 : (probeOffset 1024).toNat = 2038 := by decide
  rw [h1]
  show ((List.replicate 2038 ' ' ++ "SWAPSPACE2".toList).drop 2038).take 10
      = "SWAPSPACE2".toList
  have h2 := List.drop_left (List.replicate 2038 ' ') "SWAPSPACE2".toList
  rw [List.length_replicate] at h2
  rw [h2]
  decide

/-- C1: on a device of 100 bytes at page size 4096, open and seek succeed
but the read at offset 4086 hits end of file and returns 0 of the 10
requested bytes; GLib leaves the GError NULL in that case and
`swap.c:104` dereferences it, so `bd_swap_swapon` reaches the
NULL-pointer crash — not the failure-with-message the claim asserts for a
short read. -/
theorem C1_swapon_short_read_crash :
    bd_swap_swapon ⟨none, none, none, List.replicate 100 ' '⟩ 4096
        "/dev/sda1" (-1)
      = .nullDeref
    ∧ (devStatus ⟨none, none, none, List.replicate 100 ' '⟩ 4096).length
        < 10 := by
  exact ⟨rfl, by decide⟩

/-- C5: once the probe classifies the device as activatable, the priority
flag-value pair is included exactly when `priority >= 0`: priority `-1`
issues `swapon device` and priority `5` issues `swapon -p 5 device`. -/
theorem C5_swapon_priority_argv (d : Device) (p : Int) (device : String)
    (ho : d.openErr = none) (hs : d.seekErr = none) (hr : d.readErr = none)
    (hl : (devStatus d p).length = 10)
    (hp : "SWAPSPACE2".toList.isPrefixOf (devStatus d p) = true) :
    (∀ priority : Int, priority ≥ 0 →
      bd_swap_swapon d p device priority
        = .execCmd ["swapon", "-p", toString priority, device])
    ∧ (∀ priority : Int, priority < 0 →
      bd_swap_swapon d p device priority = .execCmd ["swapon", device])
    ∧ bd_swap_swapon d p device (-1) = .execCmd ["swapon", device]
    ∧ bd_swap_swapon d p device 5
        = .execCmd ["swapon", "-p", "5", device] := by
  obtain ⟨oe, se, re, cs⟩ := d
  simp only at ho hs hr
  subst ho; subst hs; subst hr
  refine ⟨?_, ?_, ?_, ?_⟩
  · intro priority hpr
    rw [swapon_exec_of_sig cs p device priority hl hp, swaponArgv, if_pos hpr]
  · intro priority hpr
    rw [swapon_exec_of_sig cs p device priority hl hp, swaponArgv,
      if_neg (by omega : ¬(priority ≥ 0))]
  · rw [swapon_exec_of_sig cs p device (-1) hl hp]
    rfl
  · rw [swapon_exec_of_sig cs p device 5 hl hp]
    rfl

/-- C5 witness: on the concrete `goodDev` at page size 1024, priority `-1`
issues `swapon /dev/sda1` and priority `5` issues `swapon -p 5 /dev/sda1`. -/
theorem C5_swapon_priority_argv_witness :
    bd_swap_swapon goodDev 1024 "/dev/sda1" (-1)
      = .execCmd ["swapon", "/dev/sda1"]
    ∧ bd_swap_swapon goodDev 1024 "/dev/sda1" 5
      = .execCmd ["swapon", "-p", "5", "/dev/sda1"] := by
  have h := C5_swapon_priority_argv goodDev 1024 "/dev/sda1" rfl rfl rfl
    (by rw [goodDev_status]; decide) (by rw [goodDev_status]; decide)
  exact ⟨h.2.2.1, h.2.2.2⟩

/-- The scanning loop of `bd_swap_swapstatus`: `next_line` is set to the
position right after each newline (visited in order by
`strchr (next_line, '\n') + 1`), checked while it stays strictly inside
the buffer (`(gsize)(next_line - file_content) < length`), and at every
such position `g_str_has_prefix (next_line, real_device ... device)` tests
whether the remaining text starts with the device path. -/
def swapScanRest (dev : List Char) : List Char → Bool
  | [] => false
  | c :: rest =>
    if c = '\n' ∧ rest ≠ [] then dev.isPrefixOf rest || swapScanRest dev rest
    else swapScanRest dev rest

/-- The whole `/proc/swaps` scan of `bd_swap_swapstatus`: first the prefix
test on the full contents (`g_str_has_prefix (file_content, ...)`, which
covers the header line), then the loop over the positions after each
newline. -/
def swapScan (dev content : List Char) : Bool :=
  dev.isPrefixOf content || swapScanRest dev content

/-- The lines of the registry text, split at newline characters (the final
segment after the last newline included, empty when the text ends in a
newline). -/
def linesOf : List Char → List (List Char)
  | [] => [[]]
  | c :: rest =>
    if c = '\n' then [] :: linesOf rest
    else
      match linesOf rest with
      | [] => [[c]]
      | l :: ls => (c :: l) :: ls

/-- I/O oracle for `bd_swap_swapstatus`: the outcome of
`g_file_get_contents ("/proc/swaps", ...)` and of
`g_file_read_link (device, ...)`, each either an error message or the
text/target obtained. -/
structure SwapEnv where
  procSwaps : Except String (List Char)
  readLink : Except String (List Char)

/-- `true` exactly when the oracle call succeeded. -/
def exceptOk {α : Type} : Except String α → Bool
  | .ok _ => true
  | .error _ => false

/-- Result of `bd_swap_swapstatus`: `FALSE` with `*error_message` set
(`err`), or a clean activity answer with `*error_message = NULL`
(`active`). -/
inductive StatusResult where
  | err : String → StatusResult
  | active : Bool → StatusResult
deriving DecidableEq, Repr

/-- `true` exactly on the error outcome. -/
def StatusResult.isErr : StatusResult → Bool
  | .err _ => true
  | .active _ => false

/-- The device-resolution step of `bd_swap_swapstatus`: when the device
path starts with the string `/dev/mapper` (`g_str_has_prefix (device,
"/dev/mapper")`), read its symlink and build
`g_strdup_printf ("/dev/%s", symlink + 3)` — five characters `/dev/`
followed by the link target minus its first three characters; any other
path is used as is. -/
def resolveDevice (device : List Char)
    (readLink : Except String (List Char)) : Except String (List Char) :=
  if "/dev/mapper".toList.isPrefixOf device then
    match readLink with
    | .error m => .error m
    | .ok symlink => .ok ("/dev/".toList ++ symlink.drop 3)
  else .ok device

/-- `bd_swap_swapstatus`, statement by statement: read `/proc/swaps`
(returning its GError message on failure), resolve `/dev/mapper` aliases
through their symlink (returning the GError message when the link cannot
be read), then scan the contents for the resolved path. -/
def bd_swap_swapstatus (env : SwapEnv) (device : List Char) : StatusResult :=
  match env.procSwaps with
  | .error m => .err m
  | .ok content =>
    match resolveDevice device env.readLink with
    | .error m => .err m
    | .ok real => .active (swapScan real content)

/-- C2 (amended): `bd_swap_swapstatus` returns an error exactly when the
registry `/proc/swaps` cannot be read, or when the device path begins with
`/dev/mapper` and its symlink cannot be read; no other condition produces
an error. -/
theorem C2_swapstatus_error_conditions (env : SwapEnv) (device : List Char) :
    (bd_swap_swapstatus env device).isErr
      = (!exceptOk env.procSwaps
          || ("/dev/mapper".toList.isPrefixOf device
              && !exceptOk env.readLink)) := by
  obtain ⟨ps, rl⟩ := env
  cases ps with
  | error m => rfl
  | ok content =>
    simp only [bd_swap_swapstatus, resolveDevice, exceptOk]
    by_cases hp : "/dev/mapper".toList.isPrefixOf device = true
    · rw [if_pos hp, hp]
      cases rl with
      | error m => rfl
      | ok t => rfl
    · rw [if_neg hp]
      rw [Bool.not_eq_true] at hp
      rw [hp]
      rfl

/-- C2 counterexample: with a perfectly readable registry but an unreadable
`/dev/mapper` symlink, `bd_swap_swapstatus` returns an error — so it does
not fail only when the registry cannot be read. -/
theorem C2_swapstatus_link_error_counterexample :
    bd_swap_swapstatus
        ⟨.ok "Filename\t\t\t\tType\t\tSize\tUsed\tPriority\n".toList,
          .error "boom"⟩
        "/dev/mapper/vg-lv".toList
      = .err "boom"
    ∧ exceptOk
        (.ok "Filename\t\t\t\tType\t\tSize\tUsed\tPriority\n".toList
          : Except String (List Char)) = true := by
  exact ⟨by decide, rfl⟩

/-- A path without newline characters is a prefix of a text exactly when it
is a prefix of the text's first line. -/
theorem isPrefixOf_takeWhile :
    ∀ (dev : List Char), '\n' ∉ dev → ∀ s : List Char,
      dev.isPrefixOf s = dev.isPrefixOf (s.takeWhile (fun c => c != '\n'))
  | [], _, s => by simp
  | d :: ds, hn, [] => by simp [List.takeWhile]
  | d :: ds, hn, c :: rest => by
    have hd : d ≠ '\n' := fun h => hn (by simp [h])
    have hds : '\n' ∉ ds := fun h => hn (by simp [h])
    by_cases hc : c = '\n'
    · subst hc
      rw [List.takeWhile_cons]
      simp [List.isPrefixOf, hd]
    · rw [List.takeWhile_cons]
      have hcb : (c != '\n') = true := by simp [hc]
      rw [if_pos hcb]
      simp only [List.isPrefixOf]
      rw [isPrefixOf_takeWhile ds hds rest]

/-- `linesOf` always starts with the first line: the longest
newline-free leading segment of the text. -/
theorem linesOf_eq_cons :
    ∀ s : List Char,
      ∃ t, linesOf s = s.takeWhile (fun c => c != '\n') :: t
  | [] => ⟨[], rfl⟩
  | c :: rest => by
    by_cases hc : c = '\n'
    · subst hc
      refine ⟨linesOf rest, ?_⟩
      rw [linesOf, if_pos rfl, List.takeWhile_cons]
      simp
    · obtain ⟨t, ht⟩ := linesOf_eq_cons rest
      refine ⟨t, ?_⟩
      rw [linesOf, if_neg hc, ht, List.takeWhile_cons]
      have hcb : (c != '\n') = true := by simp [hc]
      rw [if_pos hcb]

/-- The newline-position loop of the scan agrees with a per-line prefix
test over all lines after the first, for a nonempty newline-free device
path. -/
theorem swapScanRest_eq :
    ∀ (dev : List Char), dev ≠ [] → '\n' ∉ dev → ∀ s : List Char,
      swapScanRest dev s = (linesOf s).tail.any (fun l => dev.isPrefixOf l)
  | dev, hne, hn, [] => by simp [swapScanRest, linesOf]
  | dev, hne, hn, c :: rest => by
    by_cases hc : c = '\n'
    · subst hc
      cases rest with
      | nil =>
        rw [swapScanRest, if_neg (by simp)]
        rw [swapScanRest]
        obtain ⟨d, ds, rfl⟩ : ∃ d ds, dev = d :: ds := by
          cases dev with
          | nil => exact absurd rfl hne
          | cons d ds => exact ⟨d, ds, rfl⟩
        simp [linesOf]
      | cons r rs =>
        rw [swapScanRest, if_pos ⟨rfl, by simp⟩]
        rw [swapScanRest_eq dev hne hn (r :: rs)]
        obtain ⟨t, ht⟩ := linesOf_eq_cons (r :: rs)
        rw [ht]
        show _ = (linesOf ('\n' :: r :: rs)).tail.any _
        rw [linesOf, if_pos rfl]
        simp only [List.tail_cons, List.any_cons]
        rw [isPrefixOf_takeWhile dev hn (r :: rs)]
        rw [ht]
        simp [List.any_cons]
    · rw [swapScanRest, if_neg (by tauto)]
      rw [swapScanRest_eq dev hne hn rest]
      obtain ⟨t, ht⟩ := linesOf_eq_cons rest
      rw [linesOf, if_neg hc, ht]
      rfl

/-- The full scan of `bd_swap_swapstatus` agrees with a per-line prefix
test over all lines of the registry, for a newline-free device path. -/
theorem swapScan_eq_any_lines (dev : List Char) (hn : '\n' ∉ dev)
    (content : List Char) :
    swapScan dev content
      = (linesOf content).any (fun l => dev.isPrefixOf l) := by
  obtain ⟨t, ht⟩ := linesOf_eq_cons content
  by_cases hdev : dev = []
  · subst hdev
    rw [swapScan, ht]
    simp
  · rw [swapScan, swapScanRest_eq dev hdev hn content, ht]
    rw [List.tail_cons, List.any_cons]
    rw [isPrefixOf_takeWhile dev hn content]

/-- C3: with a readable registry and a resolved, newline-free device path,
`bd_swap_swapstatus` answers `true` exactly when some line of the registry
(the header line included) starts with the resolved path, and `false` when
no line matches; in particular a resolved path that is a strict
string-prefix of a line still matches. -/
theorem C3_swapstatus_line_match (env : SwapEnv)
    (device real content : List Char)
    (hc : env.procSwaps = .ok content)
    (hr : resolveDevice device env.readLink = .ok real)
    (hn : '\n' ∉ real) :
    (bd_swap_swapstatus env device = .active true ↔
      ∃ l ∈ linesOf content, real.isPrefixOf l = true)
    ∧ (bd_swap_swapstatus env device = .active false ↔
      ¬ ∃ l ∈ linesOf content, real.isPrefixOf l = true)
    ∧ (∀ l ∈ linesOf content, real.isPrefixOf l = true →
        bd_swap_swapstatus env device = .active true) := by
  obtain ⟨ps, rl⟩ := env
  simp only at hc hr
  subst hc
  have hmain : bd_swap_swapstatus ⟨.ok content, rl⟩ device
      = .active ((linesOf content).any (fun l => real.isPrefixOf l)) := by
    simp only [bd_swap_swapstatus, hr]
    rw [swapScan_eq_any_lines real hn content]
  rw [hmain]
  refine ⟨?_, ?_, ?_⟩
  · simp [List.any_eq_true]
  · simp [List.any_eq_true]
  · intro l hl hpre
    rw [List.any_eq_true.mpr ⟨l, hl, hpre⟩]

/-- C3 witness: with the registry holding a header line and an entry for
`/dev/dm-2`, the non-alias device `/dev/dm-2` is reported active, and the
scan facts of the theorem hold at this concrete input. -/
theorem C3_swapstatus_line_match_witness :
    ((bd_swap_swapstatus
        ⟨.ok "Filename Type Size Used Priority\n/dev/dm-2 partition 1048576 0 -1".toList,
          .ok "../dm-2".toList⟩ "/dev/dm-2".toList = .active true ↔
      ∃ l ∈ linesOf
          "Filename Type Size Used Priority\n/dev/dm-2 partition 1048576 0 -1".toList,
        "/dev/dm-2".toList.isPrefixOf l = true)
    ∧ (bd_swap_swapstatus
        ⟨.ok "Filename Type Size Used Priority\n/dev/dm-2 partition 1048576 0 -1".toList,
          .ok "../dm-2".toList⟩ "/dev/dm-2".toList = .active false ↔
      ¬ ∃ l ∈ linesOf
          "Filename Type Size Used Priority\n/dev/dm-2 partition 1048576 0 -1".toList,
        "/dev/dm-2".toList.isPrefixOf l = true)
    ∧ (∀ l ∈ linesOf
          "Filename Type Size Used Priority\n/dev/dm-2 partition 1048576 0 -1".toList,
        "/dev/dm-2".toList.isPrefixOf l = true →
        bd_swap_swapstatus
          ⟨.ok "Filename Type Size Used Priority\n/dev/dm-2 partition 1048576 0 -1".toList,
            .ok "../dm-2".toList⟩ "/dev/dm-2".toList = .active true)) := by
  exact C3_swapstatus_line_match
    ⟨.ok "Filename Type Size Used Priority\n/dev/dm-2 partition 1048576 0 -1".toList,
      .ok "../dm-2".toList⟩
    "/dev/dm-2".toList "/dev/dm-2".toList
    "Filename Type Size Used Priority\n/dev/dm-2 partition 1048576 0 -1".toList
    rfl rfl (by decide)

/-- C6: a path in the device-mapper namespace whose link target is a
relative reference `../name` resolves to `/dev/name` (concretely,
`/dev/mapper/vg-lv` with target `../dm-2` resolves to `/dev/dm-2`); any
other path is returned unchanged; and resolution fails with the link's
error when the link cannot be read. -/
theorem C6_resolve_mapper_link (device name : List Char) (m : String)
    (rl : Except String (List Char)) :
    ("/dev/mapper".toList.isPrefixOf device = true →
      resolveDevice device (.ok ('.' :: '.' :: '/' :: name))
        = .ok ("/dev/".toList ++ name))
    ∧ ("/dev/mapper".toList.isPrefixOf device = false →
      resolveDevice device rl = .ok device)
    ∧ ("/dev/mapper".toList.isPrefixOf device = true →
      resolveDevice device (.error m) = .error m)
    ∧ resolveDevice "/dev/mapper/vg-lv".toList (.ok "../dm-2".toList)
        = .ok "/dev/dm-2".toList := by
  refine ⟨?_, ?_, ?_, rfl⟩
  · intro h
    rw [resolveDevice, if_pos h]
    rfl
  · intro h
    rw [resolveDevice.eq_def, if_neg (by rw [h]; exact Bool.false_ne_true)]
  · intro h
    rw [resolveDevice, if_pos h]

/-- C6 witness: `/dev/mapper/vg-lv` is in the mapper namespace, target
`../dm-2` yields `/dev/dm-2`, the non-mapper path `/dev/sda1` resolves to
itself, and an unreadable link propagates its error. -/
theorem C6_resolve_mapper_link_witness :
    ("/dev/mapper".toList.isPrefixOf "/dev/mapper/vg-lv".toList = true
      ∧ "/dev/mapper".toList.isPrefixOf "/dev/sda1".toList = false)
    ∧ resolveDevice "/dev/mapper/vg-lv".toList
        (.ok ('.' :: '.' :: '/' :: "dm-2".toList))
        = .ok ("/dev/".toList ++ "dm-2".toList)
    ∧ resolveDevice "/dev/sda1".toList (.ok "../dm-2".toList)
        = .ok "/dev/sda1".toList
    ∧ resolveDevice "/dev/mapper/vg-lv".toList (.error "boom")
        = .error "boom" := by
  refine ⟨⟨by decide, by decide⟩, ?_, ?_, ?_⟩
  · exact (C6_resolve_mapper_link "/dev/mapper/vg-lv".toList "dm-2".toList
      "boom" (.ok "../dm-2".toList)).1 (by decide)
  · exact (C6_resolve_mapper_link "/dev/sda1".toList "dm-2".toList
      "boom" (.ok "../dm-2".toList)).2.1 (by decide)
  · exact (C6_resolve_mapper_link "/dev/mapper/vg-lv".toList "dm-2".toList
      "boom" (.ok "../dm-2".toList)).2.2.1 (by decide)

/-- C9: the alias test is a raw string-prefix check against `/dev/mapper`:
every path beginning with that string — `/dev/mapperfoo` included — goes
through symlink resolution (the outcome is a pure function of the link
oracle), and every other path is returned unchanged whatever the link
oracle holds. -/
theorem C9_mapper_raw_string_test (device : List Char)
    (rl : Except String (List Char)) :
    ("/dev/mapper".toList.isPrefixOf device = false →
      resolveDevice device rl = .ok device)
    ∧ ("/dev/mapper".toList.isPrefixOf device = true →
      resolveDevice device rl
        = rl.map (fun t => "/dev/".toList ++ t.drop 3))
    ∧ "/dev/mapper".toList.isPrefixOf "/dev/mapperfoo".toList = true
    ∧ resolveDevice "/dev/mapperfoo".toList (.error "boom") = .error "boom"
    ∧ "/dev/mapper".toList.isPrefixOf "/dev/sda1".toList = false := by
  refine ⟨?_, ?_, by decide, rfl, by decide⟩
  · intro h
    rw [resolveDevice.eq_def, if_neg (by rw [h]; exact Bool.false_ne_true)]
  · intro h
    rw [resolveDevice.eq_def, if_pos h]
    cases rl with
    | error m => rfl
    | ok t => rfl

/-- C9 witness: `/dev/mapperfoo` (outside the `/dev/mapper` directory but
sharing the string prefix) is resolved through its link, and `/dev/sda1`
is returned unchanged. -/
theorem C9_mapper_raw_string_test_witness :
    ("/dev/mapper".toList.isPrefixOf "/dev/mapperfoo".toList = true
      ∧ "/dev/mapper".toList.isPrefixOf "/dev/sda1".toList = false)
    ∧ resolveDevice "/dev/mapperfoo".toList (.ok "../dm-7".toList)
        = (Except.ok "../dm-7".toList : Except String (List Char)).map
            (fun t => "/dev/".toList ++ t.drop 3)
    ∧ resolveDevice "/dev/sda1".toList (.ok "../dm-7".toList)
        = .ok "/dev/sda1".toList := by
  refine ⟨⟨by decide, by decide⟩, ?_, ?_⟩
  · exact (C9_mapper_raw_string_test "/dev/mapperfoo".toList
      (.ok "../dm-7".toList)).2.1 (by decide)
  · exact (C9_mapper_raw_string_test "/dev/sda1".toList
      (.ok "../dm-7".toList)).1 (by decide)

/-- C10 counterexample: for link target `dm-2` the code drops the first
three characters `d`, `m`, `-` and produces `/dev/2`, not the path
`-2` under `/dev/` that the claim's example states. -/
theorem C10_drop3_example_counterexample :
    resolveDevice "/dev/mapper/vg-lv".toList (.ok "dm-2".toList)
      = .ok "/dev/2".toList
    ∧ "/dev/2".toList ≠ "/dev/-2".toList := by
  exact ⟨rfl, by decide⟩

/-- C10 (amended): for every resolved alias the output is `/dev/`
concatenated with the link target minus its first three characters,
unconditionally — a target `dm-2` that does not begin with `../` still has
three characters dropped, yielding `/dev/2` (not an identity result and
not an error). -/
theorem C10_resolve_unconditional_drop3 (device t : List Char)
    (h : "/dev/mapper".toList.isPrefixOf device = true) :
    resolveDevice device (.ok t) = .ok ("/dev/".toList ++ t.drop 3)
    ∧ resolveDevice "/dev/mapper/vg-lv".toList (.ok "dm-2".toList)
        = .ok "/dev/2".toList := by
  refine ⟨?_, rfl⟩
  rw [resolveDevice, if_pos h]

/-- C10 witness: the mapper-prefixed path `/dev/mapper/vg-lv` with the
non-`../` target `dm-2` resolves to `/dev/2`. -/
theorem C10_resolve_unconditional_drop3_witness :
    ("/dev/mapper".toList.isPrefixOf "/dev/mapper/vg-lv".toList = true)
    ∧ resolveDevice "/dev/mapper/vg-lv".toList (.ok "dm-2".toList)
        = .ok ("/dev/".toList ++ "dm-2".toList.drop 3) := by
  exact ⟨by decide,
    (C10_resolve_unconditional_drop3 "/dev/mapper/vg-lv".toList
      "dm-2".toList (by decide)).1⟩
